import Mathlib

/-!
Shallow embedding of the cost-accounting scripts of this repository:
src/evaluation/gaia/fix_cost.py, src/evaluation/gaia/analyze_cost.py and
src/evaluation/gaia/get_score.py.

Modelling conventions:
* Python numbers (int and float) are modelled as exact rationals; the Python
  builtin int(), which truncates toward zero, is modelled by pyInt.
* A Python dict of usage statistics is modelled as an association list from
  string keys to rational values; dict.get(k, d) is dget, raw dict[k] access
  is dlookup (missing key = KeyError).
* Line-delimited input is a list of strings; json.loads is an abstract
  parameter parse : String -> Except PErr Instance, since the JSON decoder is
  an external library.  Its error value is a function of the parsed text only,
  exactly as in the scripts, which attach no file position to it.
* File writes are modelled by returning the list of records that would be
  written together with the summary.
-/

/-- Prefix test on character lists: startsWith s p is true when p is an
initial segment of s. -/
def startsWith : List Char → List Char → Bool
  | _, [] => true
  | [], _ :: _ => false
  | a :: s, b :: p => a == b && startsWith s p

/-- Substring test on character lists: hasSubstr s p is true when p occurs
contiguously inside s (models the Python operator "needle in haystack"). -/
def hasSubstr : List Char → List Char → Bool
  | [], p => startsWith [] p
  | a :: s, p => startsWith (a :: s) p || hasSubstr s p

/-- Substring test on strings. -/
def hasSubstrStr (s p : String) : Bool := hasSubstr s.data p.data

/-- Model of the Python str.lower() method (ASCII case folding). -/
def pyLower (s : String) : String := ⟨s.data.map Char.toLower⟩

/-- Model of the Python test "not line.strip()": the line consists only of
whitespace characters. -/
def pyBlank (line : String) : Bool := line.data.all Char.isWhitespace

/-- Model of the Python builtin int() on an exact rational: truncation toward
zero. -/
def pyInt (x : ℚ) : Int :=
  let q : Nat := x.num.natAbs / x.den
  if 0 ≤ x.num then (q : Int) else -(q : Int)

/-- Left-pad a digit string with zeros to width 4. -/
def pad4 (s : String) : String := ⟨List.replicate (4 - s.data.length) '0' ++ s.data⟩

/-- Model of Python "%.4f" formatting of an exact rational (round half away
from zero at the fourth decimal). -/
def fmt4 (x : ℚ) : String :=
  let neg := x < 0
  let y : ℚ := if neg then -x else x
  let scaled : Int := pyInt (y * 10000 + 1 / 2)
  let ip := scaled / 10000
  let fp := (scaled % 10000).natAbs
  (if neg then "-" else "") ++ toString ip ++ "." ++ pad4 (toString fp)

/-- Message content: either a string or some non-string structured value. -/
inductive Content
  | str (s : String)
  | other
  deriving DecidableEq

/-- One transcript message (fields used by the scripts: role and content). -/
structure Message where
  role : String
  content : Content
  deriving DecidableEq

/-- The test_result sub-object of an instance record: a score and the
usage-statistics dict. An absent or empty usage_stats dict is the empty
association list. -/
structure TestResult where
  score : ℚ
  usage_stats : List (String × ℚ)
  deriving DecidableEq

/-- One instance record of the line-delimited log file. level models the
value out.instance.Level read by get_score.py. -/
structure Instance where
  instance_id : String
  level : String
  metadata : String
  messages : List Message
  test_result : TestResult
  deriving DecidableEq

/-- dict.get(key, default) on a usage-statistics dict. -/
def dget (d : List (String × ℚ)) (key : String) (dflt : ℚ) : ℚ :=
  match d with
  | [] => dflt
  | (k, v) :: rest => if k = key then v else dget rest key dflt

/-- Raw dict[key] access: none models a Python KeyError. -/
def dlookup (d : List (String × ℚ)) (key : String) : Option ℚ :=
  match d with
  | [] => none
  | (k, v) :: rest => if k = key then some v else dlookup rest key

/-- Loop body of detect_retry_pattern (fix_cost.py lines 48-62), carrying the
three accumulators of the Python loop. -/
def detect_go (retry_count case_not_resolved_count : ℕ) (has_meta_agent : Bool) :
    List Message → ℕ × ℕ × Bool
  | [] => (retry_count, case_not_resolved_count, has_meta_agent)
  | msg :: rest =>
    match msg.content with
    | Content.str content =>
      detect_go
        (if hasSubstrStr (pyLower content) "try to resolve the case again"
          then retry_count + 1 else retry_count)
        (if hasSubstrStr content "Case not resolved"
          then case_not_resolved_count + 1 else case_not_resolved_count)
        (if hasSubstrStr (pyLower content) "existing agent system" && hasSubstrStr content "MetaChain"
          then true else has_meta_agent)
        rest
    | Content.other => detect_go retry_count case_not_resolved_count has_meta_agent rest

/-- detect_retry_pattern (fix_cost.py lines 41-62): returns
(retry_count, case_not_resolved_count, has_meta_agent). -/
def detect_retry_pattern (messages : List Message) : ℕ × ℕ × Bool :=
  detect_go 0 0 false messages

/-- The fixed usage-statistics dict built by fix_instance_cost
(fix_cost.py lines 102-113). -/
def fixed_usage_stats (us : List (String × ℚ)) (retry_count : ℕ) : List (String × ℚ) :=
  let multiplier : ℚ := (retry_count : ℚ) + 1
  let original_cost := dget us "total_cost" 0
  [("total_prompt_tokens", ((pyInt (dget us "total_prompt_tokens" 0 * multiplier) : Int) : ℚ)),
   ("total_completion_tokens", ((pyInt (dget us "total_completion_tokens" 0 * multiplier) : Int) : ℚ)),
   ("total_tokens", ((pyInt (dget us "total_tokens" 0 * multiplier) : Int) : ℚ)),
   ("total_cost", original_cost * multiplier),
   ("api_calls", dget us "api_calls" 0 * multiplier),
   ("_original_cost", original_cost),
   ("_original_api_calls", dget us "api_calls" 0),
   ("_retry_count", (retry_count : ℚ)),
   ("_multiplier", multiplier)]

/-- The modification reason string built by fix_instance_cost
(fix_cost.py lines 120-121). -/
def fix_reason (us : List (String × ℚ)) (retry_count : ℕ) : String :=
  let original_cost := dget us "total_cost" 0
  "Multiplied by " ++ toString (retry_count + 1) ++ " (retry_count=" ++ toString retry_count ++
    "), cost: $" ++ fmt4 original_cost ++ " -> $" ++ fmt4 (original_cost * ((retry_count : ℚ) + 1))

/-- fix_instance_cost (fix_cost.py lines 73-123): returns
(fixed_instance, was_modified, modification_reason). -/
def fix_instance_cost (inst : Instance) : Instance × Bool × String :=
  if inst.test_result.usage_stats = [] then (inst, false, "No usage_stats found")
  else if (detect_retry_pattern inst.messages).1 = 0 then (inst, false, "No retries detected")
  else
    ({ inst with test_result :=
        { inst.test_result with
            usage_stats := fixed_usage_stats inst.test_result.usage_stats
              (detect_retry_pattern inst.messages).1 } },
     true,
     fix_reason inst.test_result.usage_stats (detect_retry_pattern inst.messages).1)

/-- Parse errors of the external JSON decoder (json.loads): the error value is
a function of the offending text alone; the scripts attach nothing to it. -/
structure PErr where
  msg : String
  deriving DecidableEq

/-- Per-record entry of the modifications list built by fix_output_file
(fix_cost.py lines 166-171). -/
structure Modification where
  instance_id : String
  reason : String
  original_cost : ℚ
  fixed_cost : ℚ
  deriving DecidableEq

/-- The summary dict built by fix_output_file (fix_cost.py lines 135-141). -/
structure FixSummary where
  total_instances : ℕ
  modified_instances : ℕ
  original_total_cost : ℚ
  fixed_total_cost : ℚ
  modifications : List Modification
  deriving DecidableEq

/-- The initial summary of fix_output_file. -/
def initFixSummary : FixSummary :=
  { total_instances := 0, modified_instances := 0, original_total_cost := 0,
    fixed_total_cost := 0, modifications := [] }

/-- Per-record summary update of the fix_output_file loop
(fix_cost.py lines 151-171). -/
def fix_step_summary (s : FixSummary) (inst : Instance) : FixSummary :=
  let original_cost := dget inst.test_result.usage_stats "total_cost" 0
  let res := fix_instance_cost inst
  let fixed_cost := dget res.1.test_result.usage_stats "total_cost" 0
  { total_instances := s.total_instances + 1,
    modified_instances := s.modified_instances + (if res.2.1 then 1 else 0),
    original_total_cost := s.original_total_cost + original_cost,
    fixed_total_cost := s.fixed_total_cost + fixed_cost,
    modifications := s.modifications ++
      (if res.2.1 then
        [{ instance_id := inst.instance_id, reason := res.2.2,
           original_cost := original_cost, fixed_cost := fixed_cost }]
       else []) }

/-- Line loop of fix_output_file (fix_cost.py lines 145-173): blank lines are
skipped; a parse failure aborts with the parse error of that line; otherwise
the record is fixed and appended to the would-be output. -/
def fix_go (parse : String → Except PErr Instance) (s : FixSummary) (fl : List Instance) :
    List String → Except PErr (FixSummary × List Instance)
  | [] => Except.ok (s, fl)
  | line :: rest =>
    if pyBlank line = true then fix_go parse s fl rest
    else
      match parse line with
      | Except.error e => Except.error e
      | Except.ok inst => fix_go parse (fix_step_summary s inst) (fl ++ [(fix_instance_cost inst).1]) rest

/-- fix_output_file (fix_cost.py lines 126-180) on the lines of the input
file: returns the summary and the records written to the output file, or the
parse error that aborted the run (in which case no output file is written,
since the source buffers all lines and writes only after the loop). -/
def fix_output_file (parse : String → Except PErr Instance) (lines : List String) :
    Except PErr (FixSummary × List Instance) :=
  fix_go parse initFixSummary [] lines

/-- Model of Python str.replace(pat, rep) scanning left to right with
non-overlapping matches, with explicit fuel for structural recursion; the
fuel is always instantiated with the length of the subject string. -/
def replaceAllFuel (pat rep : List Char) : ℕ → List Char → List Char
  | 0, s => s
  | _ + 1, [] => []
  | fuel + 1, a :: t =>
    if pat ≠ [] ∧ startsWith (a :: t) pat = true then
      rep ++ replaceAllFuel pat rep fuel (List.drop (pat.length - 1) t)
    else a :: replaceAllFuel pat rep fuel t

/-- Python str.replace on strings (every occurrence, left to right). -/
def pyReplace (s pat rep : String) : String :=
  ⟨replaceAllFuel pat.data rep.data s.data.length s.data⟩

/-- The default output path of fix_output_file (fix_cost.py line 133):
input_path.replace with pattern .jsonl and replacement _fixed.jsonl. -/
def default_output_path (input_path : String) : String :=
  pyReplace input_path ".jsonl" "_fixed.jsonl"

/-- Output-path selection of main (fix_cost.py lines 194-196 and 132-133):
the explicit --output value, overridden by /dev/null under --dry-run, and
defaulted from the input path when absent. -/
def chosen_output_path (input_path : String) (output : Option String) (dry_run : Bool) : String :=
  let op : Option String := if dry_run then some "/dev/null" else output
  match op with
  | none => default_output_path input_path
  | some p => p

/-- Running totals of analyze_cost (analyze_cost.py lines 20-27). -/
structure AnalyzeTotals where
  total_prompt_tokens : ℚ
  total_completion_tokens : ℚ
  total_tokens : ℚ
  total_cost : ℚ
  total_api_calls : ℚ
  num_instances : ℕ
  deriving DecidableEq

/-- The initial totals of analyze_cost. -/
def initAnalyzeTotals : AnalyzeTotals :=
  { total_prompt_tokens := 0, total_completion_tokens := 0, total_tokens := 0,
    total_cost := 0, total_api_calls := 0, num_instances := 0 }

/-- One entry of the per-instance cost list (analyze_cost.py lines 51-57). -/
structure InstCost where
  instance_id : String
  cost : ℚ
  tokens : ℚ
  api_calls : ℚ
  score : ℚ
  deriving DecidableEq

/-- Line loop of analyze_cost (analyze_cost.py lines 31-57): blank lines are
skipped; a parse failure aborts; an instance with empty usage_stats counts
toward num_instances only. -/
def analyze_go (parse : String → Except PErr Instance) (tot : AnalyzeTotals)
    (costs : List InstCost) : List String → Except PErr (AnalyzeTotals × List InstCost)
  | [] => Except.ok (tot, costs)
  | line :: rest =>
    if pyBlank line = true then analyze_go parse tot costs rest
    else
      match parse line with
      | Except.error e => Except.error e
      | Except.ok data =>
        let tot1 := { tot with num_instances := tot.num_instances + 1 }
        if data.test_result.usage_stats = [] then analyze_go parse tot1 costs rest
        else
          analyze_go parse
            { tot1 with
                total_prompt_tokens :=
                  tot1.total_prompt_tokens + dget data.test_result.usage_stats "total_prompt_tokens" 0,
                total_completion_tokens :=
                  tot1.total_completion_tokens + dget data.test_result.usage_stats "total_completion_tokens" 0,
                total_tokens := tot1.total_tokens + dget data.test_result.usage_stats "total_tokens" 0,
                total_cost := tot1.total_cost + dget data.test_result.usage_stats "total_cost" 0,
                total_api_calls := tot1.total_api_calls + dget data.test_result.usage_stats "api_calls" 0 }
            (costs ++ [{ instance_id := data.instance_id,
                         cost := dget data.test_result.usage_stats "total_cost" 0,
                         tokens := dget data.test_result.usage_stats "total_tokens" 0,
                         api_calls := dget data.test_result.usage_stats "api_calls" 0,
                         score := data.test_result.score }])
            rest

/-- Stable insertion of one entry into a list sorted by strictly greater
cost, placing ties after earlier entries (models the stable descending sort
of analyze_cost.py line 87). -/
def insertByCost (x : InstCost) : List InstCost → List InstCost
  | [] => [x]
  | y :: t => if x.cost > y.cost then x :: y :: t else y :: insertByCost x t

/-- Stable descending sort by cost. -/
def sortByCostDesc (l : List InstCost) : List InstCost :=
  l.foldl (fun acc x => insertByCost x acc) []

/-- The rendered result of analyze_cost (analyze_cost.py lines 59-96):
totals, the per-instance averages (omitted when num_instances is zero,
line 74), and the top five instances by cost. -/
structure AnalyzeReport where
  totals : AnalyzeTotals
  averages : Option (ℚ × ℚ × ℚ)
  top5 : List InstCost
  deriving DecidableEq

/-- analyze_cost (analyze_cost.py lines 14-96) on the lines of the input
file. -/
def analyze_cost (parse : String → Except PErr Instance) (lines : List String) :
    Except PErr AnalyzeReport :=
  match analyze_go parse initAnalyzeTotals [] lines with
  | Except.error e => Except.error e
  | Except.ok (tot, costs) =>
    Except.ok
      { totals := tot,
        averages :=
          if tot.num_instances > 0 then
            some (tot.total_api_calls / (tot.num_instances : ℚ),
                  tot.total_tokens / (tot.num_instances : ℚ),
                  tot.total_cost / (tot.num_instances : ℚ))
          else none,
        top5 := (sortByCostDesc costs).take 5 }

/-- Errors get_score.py can raise: a JSON parse failure, the IndexError of
outs[0] on an empty file, a KeyError of a raw dict access, and the
ZeroDivisionError of an unguarded rate computation. -/
inductive ScoreErr
  | parseErr (e : PErr)
  | indexErr
  | keyErr
  | zeroDiv
  deriving DecidableEq

/-- Python truthiness of a score value (number or boolean, booleans being the
integers 0 and 1): nonzero. -/
def truthy (x : ℚ) : Bool := decide (x ≠ 0)

/-- The tally accumulators of get_score.py main (lines 18-28). -/
structure ScoreTally where
  total : ℕ
  success : ℕ
  l1_total : ℕ
  l1_success : ℕ
  l1_cost : ℚ
  l2_total : ℕ
  l2_success : ℕ
  l2_cost : ℚ
  l3_total : ℕ
  l3_success : ℕ
  l3_cost : ℚ
  deriving DecidableEq

/-- The zero tally. -/
def initScoreTally : ScoreTally :=
  { total := 0, success := 0, l1_total := 0, l1_success := 0, l1_cost := 0,
    l2_total := 0, l2_success := 0, l2_cost := 0, l3_total := 0, l3_success := 0, l3_cost := 0 }

/-- Loop body of get_score.py main (lines 29-47): the contribution of one record.
The Level-1/2/3 branches read usage_stats with raw indexing, so a missing
total_cost key is a KeyError; a record with any other Level value touches
only the global total and success counters. -/
def score_step (t : ScoreTally) (out : Instance) : Except ScoreErr ScoreTally :=
  let bump := if truthy out.test_result.score then 1 else 0
  let t1 := { t with total := t.total + 1, success := t.success + bump }
  if out.level = "1" then
    match dlookup out.test_result.usage_stats "total_cost" with
    | none => Except.error ScoreErr.keyErr
    | some c =>
      Except.ok { t1 with l1_total := t1.l1_total + 1, l1_success := t1.l1_success + bump,
                          l1_cost := t1.l1_cost + c }
  else if out.level = "2" then
    match dlookup out.test_result.usage_stats "total_cost" with
    | none => Except.error ScoreErr.keyErr
    | some c =>
      Except.ok { t1 with l2_total := t1.l2_total + 1, l2_success := t1.l2_success + bump,
                          l2_cost := t1.l2_cost + c }
  else if out.level = "3" then
    match dlookup out.test_result.usage_stats "total_cost" with
    | none => Except.error ScoreErr.keyErr
    | some c =>
      Except.ok { t1 with l3_total := t1.l3_total + 1, l3_success := t1.l3_success + bump,
                          l3_cost := t1.l3_cost + c }
  else Except.ok t1

/-- The whole tally loop of get_score.py main (lines 29-47), one record at a
time from the zero tally, stopping at the first error. -/
def score_tallies_go (t : ScoreTally) : List Instance → Except ScoreErr ScoreTally
  | [] => Except.ok t
  | out :: rest =>
    match score_step t out with
    | Except.error e => Except.error e
    | Except.ok t1 => score_tallies_go t1 rest

/-- The whole tally loop of get_score.py main (lines 29-47). -/
def score_tallies (outs : List Instance) : Except ScoreErr ScoreTally :=
  score_tallies_go initScoreTally outs

/-- The values printed by get_score.py main (lines 48-58): the four success
rates, per-Level costs, and the reported total cost, which the source
computes as l1_cost + l2_cost + l3_cost. -/
structure ScoreReport where
  success_rate : ℚ
  l1_rate : ℚ
  l2_rate : ℚ
  l3_rate : ℚ
  l1_cost : ℚ
  l2_cost : ℚ
  l3_cost : ℚ
  total_cost : ℚ
  deriving DecidableEq

/-- get_score.py main after parsing (lines 16-58): outs[0].metadata is read
first (IndexError on an empty list), then the tallies, then the four rate
computations in source order, each an unguarded division that raises
ZeroDivisionError when its denominator is zero. -/
def score_report (outs : List Instance) : Except ScoreErr ScoreReport :=
  match outs with
  | [] => Except.error ScoreErr.indexErr
  | _ :: _ =>
    match score_tallies outs with
    | Except.error e => Except.error e
    | Except.ok t =>
      if t.total = 0 then Except.error ScoreErr.zeroDiv
      else if t.l1_total = 0 then Except.error ScoreErr.zeroDiv
      else if t.l2_total = 0 then Except.error ScoreErr.zeroDiv
      else if t.l3_total = 0 then Except.error ScoreErr.zeroDiv
      else
        Except.ok
          { success_rate := (t.success : ℚ) / (t.total : ℚ) * 100,
            l1_rate := (t.l1_success : ℚ) / (t.l1_total : ℚ) * 100,
            l2_rate := (t.l2_success : ℚ) / (t.l2_total : ℚ) * 100,
            l3_rate := (t.l3_success : ℚ) / (t.l3_total : ℚ) * 100,
            l1_cost := t.l1_cost, l2_cost := t.l2_cost, l3_cost := t.l3_cost,
            total_cost := t.l1_cost + t.l2_cost + t.l3_cost }

/-- The line-reading loop of get_score.py main (lines 11-14): every line is
parsed, blank ones included; the first parse failure aborts. -/
def parse_all (parse : String → Except PErr Instance) : List String → Except PErr (List Instance)
  | [] => Except.ok []
  | l :: ls =>
    match parse l with
    | Except.error e => Except.error e
    | Except.ok i =>
      match parse_all parse ls with
      | Except.error e => Except.error e
      | Except.ok is => Except.ok (i :: is)

/-- get_score.py main (lines 5-58) on the lines of the input file. -/
def get_score_main (parse : String → Except PErr Instance) (lines : List String) :
    Except ScoreErr ScoreReport :=
  match parse_all parse lines with
  | Except.error e => Except.error (ScoreErr.parseErr e)
  | Except.ok outs => score_report outs

/-- A Level-1 record with one retry-phrase message and a one-key
usage-statistics dict. -/
def instRetry : Instance :=
  { instance_id := "task-retry", level := "1", metadata := "md",
    messages := [{ role := "user", content := Content.str "Please try to resolve the case again." }],
    test_result := { score := 1, usage_stats := [("total_cost", 1)] } }

/-- A Level-1 record with no retry phrase in its transcript. -/
def instPlain : Instance :=
  { instance_id := "task-plain", level := "1", metadata := "md",
    messages := [{ role := "assistant", content := Content.str "Case resolved." }],
    test_result := { score := 1, usage_stats := [("total_cost", 2)] } }

/-- A Level-2 record with no retry phrase. -/
def instL2 : Instance :=
  { instance_id := "task-l2", level := "2", metadata := "md", messages := [],
    test_result := { score := 1, usage_stats := [("total_cost", 1)] } }

/-- A Level-3 record with no retry phrase. -/
def instL3 : Instance :=
  { instance_id := "task-l3", level := "3", metadata := "md", messages := [],
    test_result := { score := 1, usage_stats := [("total_cost", 1)] } }

/-- A record whose Level value is none of 1, 2, 3 and whose cost is 5. -/
def instL4 : Instance :=
  { instance_id := "task-l4", level := "4", metadata := "md", messages := [],
    test_result := { score := 1, usage_stats := [("total_cost", 5)] } }

/-- The json.loads error raised on text that is not valid JSON: its message
cites the position inside the parsed text (always line 1 for a single line),
never the position of the line in the file. -/
def peInvalid : PErr := { msg := "Expecting value: line 1 column 1 (char 0)" }

/-- A concrete stand-in for json.loads used by closed witnesses: two known
good lines decode to fixed records, everything else (blank lines included,
as with json.loads) fails with the same content-determined error. -/
def parse0 (l : String) : Except PErr Instance :=
  if l = "recRetry" then Except.ok instRetry
  else if l = "recPlain" then Except.ok instPlain
  else Except.error peInvalid

/-- The retry predicate of the specification: the message has string content
containing, case-insensitively, the phrase of the retry marker. -/
def retryMsg (m : Message) : Bool :=
  match m.content with
  | Content.str s => hasSubstrStr (pyLower s) "try to resolve the case again"
  | Content.other => false

/-- The unresolved predicate of the specification: string content containing
the exact, case-sensitive marker. -/
def unresolvedMsg (m : Message) : Bool :=
  match m.content with
  | Content.str s => hasSubstrStr s "Case not resolved"
  | Content.other => false

/-- The meta-agent predicate of the specification: one message containing
both the case-insensitive phrase and the literal marker token. -/
def metaMsg (m : Message) : Bool :=
  match m.content with
  | Content.str s => hasSubstrStr (pyLower s) "existing agent system" && hasSubstrStr s "MetaChain"
  | Content.other => false

/-- Suffix test on character lists. -/
def endsWith (s p : List Char) : Bool := startsWith s.reverse p.reverse

/-- Second definition, for comparison with default_output_path: the output
path as the claim words it, the trailing .jsonl suffix and only that suffix
occurrence replaced by _fixed.jsonl. -/
def spec_suffix_output_path (s : String) : String :=
  if endsWith s.data ".jsonl".data then ⟨s.data.take (s.data.length - 6) ++ "_fixed.jsonl".data⟩
  else s

/-- The tally produced by get_score.py on the single record instPlain. -/
def tallyPlain : ScoreTally :=
  { total := 1, success := 1, l1_total := 1, l1_success := 1, l1_cost := 2,
    l2_total := 0, l2_success := 0, l2_cost := 0, l3_total := 0, l3_success := 0, l3_cost := 0 }

/-- The report produced by get_score.py on one record of each Level 1, 2, 3
plus the unknown-Level record instL4: its reported total cost is the sum of
the three per-Level costs only. -/
def reportFour : ScoreReport :=
  { success_rate := 100, l1_rate := 100, l2_rate := 100, l3_rate := 100,
    l1_cost := 2, l2_cost := 1, l3_cost := 1, total_cost := 4 }

/-- The report analyze_cost produces on an empty file: zero totals, averages
omitted, no top instances. -/
def emptyAnalyzeReport : AnalyzeReport :=
  { totals := initAnalyzeTotals, averages := none, top5 := [] }

theorem dget_nil (key : String) (dflt : ℚ) : dget [] key dflt = dflt := rfl

theorem dget_cons (k : String) (v : ℚ) (rest : List (String × ℚ)) (key : String) (dflt : ℚ) :
    dget ((k, v) :: rest) key dflt = if k = key then v else dget rest key dflt := rfl

theorem fixed_us_total_cost (us : List (String × ℚ)) (r : ℕ) :
    dget (fixed_usage_stats us r) "total_cost" 0 = dget us "total_cost" 0 * ((r : ℚ) + 1) := by
  simp [fixed_usage_stats, dget_cons, dget_nil]

theorem fixed_us_api_calls (us : List (String × ℚ)) (r : ℕ) :
    dget (fixed_usage_stats us r) "api_calls" 0 = dget us "api_calls" 0 * ((r : ℚ) + 1) := by
  simp [fixed_usage_stats, dget_cons, dget_nil]

theorem fixed_us_prompt (us : List (String × ℚ)) (r : ℕ) :
    dget (fixed_usage_stats us r) "total_prompt_tokens" 0
      = ((pyInt (dget us "total_prompt_tokens" 0 * ((r : ℚ) + 1)) : Int) : ℚ) := by
  simp [fixed_usage_stats, dget_cons, dget_nil]

theorem fixed_us_completion (us : List (String × ℚ)) (r : ℕ) :
    dget (fixed_usage_stats us r) "total_completion_tokens" 0
      = ((pyInt (dget us "total_completion_tokens" 0 * ((r : ℚ) + 1)) : Int) : ℚ) := by
  simp [fixed_usage_stats, dget_cons, dget_nil]

theorem fixed_us_tokens (us : List (String × ℚ)) (r : ℕ) :
    dget (fixed_usage_stats us r) "total_tokens" 0
      = ((pyInt (dget us "total_tokens" 0 * ((r : ℚ) + 1)) : Int) : ℚ) := by
  simp [fixed_usage_stats, dget_cons, dget_nil]

theorem fixed_us_orig_cost (us : List (String × ℚ)) (r : ℕ) :
    dget (fixed_usage_stats us r) "_original_cost" 0 = dget us "total_cost" 0 := by
  simp [fixed_usage_stats, dget_cons, dget_nil]

theorem fixed_us_orig_api (us : List (String × ℚ)) (r : ℕ) :
    dget (fixed_usage_stats us r) "_original_api_calls" 0 = dget us "api_calls" 0 := by
  simp [fixed_usage_stats, dget_cons, dget_nil]

theorem fixed_us_retry (us : List (String × ℚ)) (r : ℕ) :
    dget (fixed_usage_stats us r) "_retry_count" 0 = (r : ℚ) := by
  simp [fixed_usage_stats, dget_cons, dget_nil]

theorem fixed_us_mult (us : List (String × ℚ)) (r : ℕ) :
    dget (fixed_usage_stats us r) "_multiplier" 0 = (r : ℚ) + 1 := by
  simp [fixed_usage_stats, dget_cons, dget_nil]

theorem fixed_us_ne_nil (us : List (String × ℚ)) (r : ℕ) : fixed_usage_stats us r ≠ [] := by
  simp [fixed_usage_stats]

theorem fix_modified_eq (inst : Instance)
    (h1 : inst.test_result.usage_stats ≠ [])
    (h2 : (detect_retry_pattern inst.messages).1 ≠ 0) :
    fix_instance_cost inst =
      ({ inst with test_result := { inst.test_result with
          usage_stats := fixed_usage_stats inst.test_result.usage_stats
            (detect_retry_pattern inst.messages).1 } },
       true,
       fix_reason inst.test_result.usage_stats (detect_retry_pattern inst.messages).1) := by
  unfold fix_instance_cost
  rw [if_neg h1, if_neg h2]

theorem reapply_total_cost (inst : Instance)
    (hus : inst.test_result.usage_stats ≠ [])
    (h2 : (detect_retry_pattern inst.messages).1 ≠ 0) :
    dget (fix_instance_cost (fix_instance_cost inst).1).1.test_result.usage_stats "total_cost" 0
      = dget inst.test_result.usage_stats "total_cost" 0 *
          (((detect_retry_pattern inst.messages).1 : ℚ) + 1) *
          (((detect_retry_pattern inst.messages).1 : ℚ) + 1) ∧
    dget (fix_instance_cost inst).1.test_result.usage_stats "total_cost" 0
      = dget inst.test_result.usage_stats "total_cost" 0 *
          (((detect_retry_pattern inst.messages).1 : ℚ) + 1) := by
  have e1 := fix_modified_eq inst hus h2
  have e2 := fix_modified_eq
    ({ inst with test_result := { inst.test_result with
        usage_stats := fixed_usage_stats inst.test_result.usage_stats
          (detect_retry_pattern inst.messages).1 } })
    (fixed_us_ne_nil _ _) h2
  rw [e1]
  dsimp only
  rw [e2]
  dsimp only
  rw [fixed_us_total_cost, fixed_us_total_cost]
  exact ⟨rfl, rfl⟩

theorem detect_go_spec (msgs : List Message) : ∀ (r c : ℕ) (m : Bool),
    detect_go r c m msgs =
      (r + msgs.countP retryMsg, c + msgs.countP unresolvedMsg, m || msgs.any metaMsg) := by
  induction msgs with
  | nil => intro r c m; simp [detect_go]
  | cons msg rest ih =>
    intro r c m
    cases hc : msg.content with
    | str s =>
      simp only [detect_go, hc]
      rw [ih]
      simp only [List.countP_cons, List.any_cons, retryMsg, unresolvedMsg, metaMsg, hc,
        Prod.mk.injEq]
      refine ⟨?_, ?_, ?_⟩
      · by_cases hA : hasSubstrStr (pyLower s) "try to resolve the case again" = true <;>
          simp [hA] <;> omega
      · by_cases hB : hasSubstrStr s "Case not resolved" = true <;> simp [hB] <;> omega
      · by_cases hC : (hasSubstrStr (pyLower s) "existing agent system"
            && hasSubstrStr s "MetaChain") = true <;>
          cases m <;> simp [hC]
    | other =>
      rw [detect_go, hc, ih]
      simp [List.countP_cons, List.any_cons, retryMsg, unresolvedMsg, metaMsg, hc]

/-- C7: detect_retry_pattern returns the count of messages whose string
content contains the retry phrase case-insensitively, the count of messages
containing the exact unresolved marker, and whether one single message
contains both the meta phrase (case-insensitively) and the literal MetaChain
token; non-string content contributes zero to all three. -/
theorem C7_detector_counts (msgs : List Message) :
    detect_retry_pattern msgs =
      (msgs.countP retryMsg, msgs.countP unresolvedMsg, msgs.any metaMsg) := by
  simpa [detect_retry_pattern] using detect_go_spec msgs 0 0 false

/-- C10: fix_instance_cost agrees with its input on every field other than
test_result.usage_stats: instance_id, Level, metadata, the whole transcript
and the score are returned unchanged in both outcomes. -/
theorem C10_frame (inst : Instance) :
    (fix_instance_cost inst).1.instance_id = inst.instance_id ∧
    (fix_instance_cost inst).1.level = inst.level ∧
    (fix_instance_cost inst).1.metadata = inst.metadata ∧
    (fix_instance_cost inst).1.messages = inst.messages ∧
    (fix_instance_cost inst).1.test_result.score = inst.test_result.score := by
  unfold fix_instance_cost
  by_cases h1 : inst.test_result.usage_stats = []
  · rw [if_pos h1]; exact ⟨rfl, rfl, rfl, rfl, rfl⟩
  · rw [if_neg h1]
    by_cases h2 : (detect_retry_pattern inst.messages).1 = 0
    · rw [if_pos h2]; exact ⟨rfl, rfl, rfl, rfl, rfl⟩
    · rw [if_neg h2]; exact ⟨rfl, rfl, rfl, rfl, rfl⟩

/-- C4: on a record whose transcript has no retry-phrase message,
fix_instance_cost is the identity: the record (usage_stats included) is
returned unchanged, it is reported as not modified, and the tag is the
literal source tag "No retries detected" (or "No usage_stats found" when the
usage-statistics dict is empty); no audit field is attached since the
usage_stats dict is returned as it was. -/
theorem C4_no_retry_identity (inst : Instance)
    (h : (detect_retry_pattern inst.messages).1 = 0) :
    (fix_instance_cost inst).1 = inst ∧
    (fix_instance_cost inst).2.1 = false ∧
    ((fix_instance_cost inst).2.2 = "No retries detected" ∨
      (fix_instance_cost inst).2.2 = "No usage_stats found") := by
  unfold fix_instance_cost
  by_cases h1 : inst.test_result.usage_stats = []
  · rw [if_pos h1]; exact ⟨rfl, rfl, Or.inr rfl⟩
  · rw [if_neg h1, if_pos h]; exact ⟨rfl, rfl, Or.inl rfl⟩

theorem C4_no_retry_identity_witness :
    (fix_instance_cost instPlain).1 = instPlain ∧
    (fix_instance_cost instPlain).2.1 = false ∧
    ((fix_instance_cost instPlain).2.2 = "No retries detected" ∨
      (fix_instance_cost instPlain).2.2 = "No usage_stats found") :=
  C4_no_retry_identity instPlain (by decide)

/-- C3: on a record with a non-empty usage-statistics dict and retry count
k at least 1, fix_instance_cost reports the record as modified and returns
usage statistics with total_cost and api_calls multiplied exactly by k+1,
each token count multiplied by k+1 and truncated to an integer, and the
audit fields original cost, original api_calls, retry count k and
multiplier k+1 attached. -/
theorem C3_scaling (inst : Instance) (k : ℕ)
    (hus : inst.test_result.usage_stats ≠ [])
    (hk : (detect_retry_pattern inst.messages).1 = k)
    (hk1 : 1 ≤ k) :
    (fix_instance_cost inst).2.1 = true ∧
    dget (fix_instance_cost inst).1.test_result.usage_stats "total_cost" 0
      = dget inst.test_result.usage_stats "total_cost" 0 * ((k : ℚ) + 1) ∧
    dget (fix_instance_cost inst).1.test_result.usage_stats "api_calls" 0
      = dget inst.test_result.usage_stats "api_calls" 0 * ((k : ℚ) + 1) ∧
    dget (fix_instance_cost inst).1.test_result.usage_stats "total_prompt_tokens" 0
      = ((pyInt (dget inst.test_result.usage_stats "total_prompt_tokens" 0 * ((k : ℚ) + 1)) : Int) : ℚ) ∧
    dget (fix_instance_cost inst).1.test_result.usage_stats "total_completion_tokens" 0
      = ((pyInt (dget inst.test_result.usage_stats "total_completion_tokens" 0 * ((k : ℚ) + 1)) : Int) : ℚ) ∧
    dget (fix_instance_cost inst).1.test_result.usage_stats "total_tokens" 0
      = ((pyInt (dget inst.test_result.usage_stats "total_tokens" 0 * ((k : ℚ) + 1)) : Int) : ℚ) ∧
    dget (fix_instance_cost inst).1.test_result.usage_stats "_original_cost" 0
      = dget inst.test_result.usage_stats "total_cost" 0 ∧
    dget (fix_instance_cost inst).1.test_result.usage_stats "_original_api_calls" 0
      = dget inst.test_result.usage_stats "api_calls" 0 ∧
    dget (fix_instance_cost inst).1.test_result.usage_stats "_retry_count" 0 = (k : ℚ) ∧
    dget (fix_instance_cost inst).1.test_result.usage_stats "_multiplier" 0 = (k : ℚ) + 1 := by
  subst hk
  have e := fix_modified_eq inst hus (by omega)
  rw [e]
  dsimp only
  exact ⟨rfl, fixed_us_total_cost _ _, fixed_us_api_calls _ _, fixed_us_prompt _ _,
    fixed_us_completion _ _, fixed_us_tokens _ _, fixed_us_orig_cost _ _,
    fixed_us_orig_api _ _, fixed_us_retry _ _, fixed_us_mult _ _⟩

theorem C3_scaling_witness :
    (fix_instance_cost instRetry).2.1 = true ∧
    dget (fix_instance_cost instRetry).1.test_result.usage_stats "total_cost" 0 = 2 ∧
    dget (fix_instance_cost instRetry).1.test_result.usage_stats "_retry_count" 0 = 1 := by
  have h := C3_scaling instRetry 1 (by decide) (by decide) (by decide)
  refine ⟨h.1, ?_, ?_⟩
  · rw [h.2.1]
    have : dget instRetry.test_result.usage_stats "total_cost" 0 = 1 := by
      simp [instRetry, dget_cons]
    rw [this]; norm_num
  · rw [h.2.2.2.2.2.2.2.2.1]; norm_num

/-- C1 counterexample: on the record instRetry (one retry-phrase message,
total_cost 1) the second application of fix_instance_cost to the record the
first application produced, whose transcript is unchanged, yields total_cost
4 instead of the 2 the first application produced: reconciliation composed
with itself is not one application. -/
theorem C1_reapply_counterexample :
    dget (fix_instance_cost (fix_instance_cost instRetry).1).1.test_result.usage_stats
        "total_cost" 0
      ≠ dget (fix_instance_cost instRetry).1.test_result.usage_stats "total_cost" 0 := by
  have h := reapply_total_cost instRetry (by decide) (by decide)
  rw [h.1, h.2]
  have hd : (detect_retry_pattern instRetry.messages).1 = 1 := by decide
  have hc : dget instRetry.test_result.usage_stats "total_cost" 0 = 1 := by
    simp [instRetry, dget_cons]
  rw [hd, hc]
  norm_num

/-- C1 amended: re-applying fix_instance_cost to the record it produced,
with the same transcript of retry count k at least 1, multiplies the already
scaled statistics by k+1 again: the second total_cost is the original times
(k+1) squared, not the original times k+1, so reconciliation is not
idempotent on modified records (it is the stated pure function of
usage_stats and retry_count, but the second run reads the scaled
usage_stats). -/
theorem C1_reapply_scales_again (inst : Instance) (k : ℕ)
    (hus : inst.test_result.usage_stats ≠ [])
    (hk : (detect_retry_pattern inst.messages).1 = k)
    (hk1 : 1 ≤ k) :
    dget (fix_instance_cost (fix_instance_cost inst).1).1.test_result.usage_stats "total_cost" 0
      = dget inst.test_result.usage_stats "total_cost" 0 * ((k : ℚ) + 1) * ((k : ℚ) + 1) ∧
    dget (fix_instance_cost inst).1.test_result.usage_stats "total_cost" 0
      = dget inst.test_result.usage_stats "total_cost" 0 * ((k : ℚ) + 1) := by
  subst hk
  exact reapply_total_cost inst hus (by omega)

theorem C1_reapply_scales_again_witness :
    dget (fix_instance_cost (fix_instance_cost instRetry).1).1.test_result.usage_stats
        "total_cost" 0 = 4 ∧
    dget (fix_instance_cost instRetry).1.test_result.usage_stats "total_cost" 0 = 2 := by
  have h := C1_reapply_scales_again instRetry 1 (by decide) (by decide) (by decide)
  have hc : dget instRetry.test_result.usage_stats "total_cost" 0 = 1 := by
    simp [instRetry, dget_cons]
  rw [hc] at h
  refine ⟨?_, ?_⟩
  · rw [h.1]; norm_num
  · rw [h.2]; norm_num

/-- C2 counterexample: on a file with one Level-1 record the score reporter
reaches the Level-2 rate computation with l2_total = 0 and raises
ZeroDivisionError instead of omitting the rate, so computing a success rate
can raise a division-by-zero error. -/
theorem C2_unguarded_rate_counterexample :
    score_report [instPlain] = Except.error ScoreErr.zeroDiv := by
  simp [score_report, score_tallies, score_tallies_go, score_step, initScoreTally, instPlain, truthy, dlookup]

/-- C2 amended: the cost analyzer guards its per-instance averages, omitting
them exactly when the instance count is zero; the score reporter does not
guard: whenever the global count or any per-Level count is zero, it fails
with ZeroDivisionError instead of omitting the rate. -/
theorem C2_rate_guarding :
    (∀ (parse : String → Except PErr Instance) (lines : List String) (rep : AnalyzeReport),
        analyze_cost parse lines = Except.ok rep →
        (rep.averages.isSome ↔ 0 < rep.totals.num_instances)) ∧
    (∀ (outs : List Instance) (t : ScoreTally),
        outs ≠ [] → score_tallies outs = Except.ok t →
        t.total = 0 ∨ t.l1_total = 0 ∨ t.l2_total = 0 ∨ t.l3_total = 0 →
        score_report outs = Except.error ScoreErr.zeroDiv) := by
  constructor
  · intro parse lines rep h
    unfold analyze_cost at h
    cases hg : analyze_go parse initAnalyzeTotals [] lines with
    | error e => rw [hg] at h; exact absurd h (by simp)
    | ok tc =>
      rw [hg] at h
      simp only [Except.ok.injEq] at h
      subst h
      by_cases hn : tc.1.num_instances > 0 <;> simp [hn]
  · intro outs t hne ht hz
    cases outs with
    | nil => exact absurd rfl hne
    | cons a as =>
      simp only [score_report]
      rw [ht]
      by_cases h1 : t.total = 0
      · simp [h1]
      · by_cases h2 : t.l1_total = 0
        · simp [h1, h2]
        · by_cases h3 : t.l2_total = 0
          · simp [h1, h2, h3]
          · by_cases h4 : t.l3_total = 0
            · simp [h1, h2, h3, h4]
            · rcases hz with z | z | z | z
              · exact absurd z h1
              · exact absurd z h2
              · exact absurd z h3
              · exact absurd z h4

theorem C2_rate_guarding_witness :
    (emptyAnalyzeReport.averages.isSome ↔ 0 < emptyAnalyzeReport.totals.num_instances) ∧
    score_report [instPlain] = Except.error ScoreErr.zeroDiv :=
  ⟨C2_rate_guarding.1 parse0 [] emptyAnalyzeReport rfl,
   C2_rate_guarding.2 [instPlain] tallyPlain (by simp)
     (by simp [score_tallies, score_tallies_go, score_step, initScoreTally, instPlain, truthy, dlookup, tallyPlain])
     (Or.inr (Or.inr (Or.inl rfl)))⟩


theorem score_step_l1 (t : ScoreTally) (r : Instance) (c : ℚ)
    (h : r.level = "1") (hc : dlookup r.test_result.usage_stats "total_cost" = some c) :
    score_step t r =
      Except.ok
        { t with
          total := t.total + 1,
          success := t.success + (if truthy r.test_result.score then 1 else 0),
          l1_total := t.l1_total + 1,
          l1_success := t.l1_success + (if truthy r.test_result.score then 1 else 0),
          l1_cost := t.l1_cost + c } := by
  simp only [score_step, h, eq_self_iff_true, if_true, hc]

theorem score_step_l2 (t : ScoreTally) (r : Instance) (c : ℚ)
    (h : r.level = "2") (hc : dlookup r.test_result.usage_stats "total_cost" = some c) :
    score_step t r =
      Except.ok
        { t with
          total := t.total + 1,
          success := t.success + (if truthy r.test_result.score then 1 else 0),
          l2_total := t.l2_total + 1,
          l2_success := t.l2_success + (if truthy r.test_result.score then 1 else 0),
          l2_cost := t.l2_cost + c } := by
  simp only [score_step, h]
  rw [if_neg (by decide : ¬ ("2" : String) = "1")]
  simp only [eq_self_iff_true, if_true, hc]

theorem score_step_l3 (t : ScoreTally) (r : Instance) (c : ℚ)
    (h : r.level = "3") (hc : dlookup r.test_result.usage_stats "total_cost" = some c) :
    score_step t r =
      Except.ok
        { t with
          total := t.total + 1,
          success := t.success + (if truthy r.test_result.score then 1 else 0),
          l3_total := t.l3_total + 1,
          l3_success := t.l3_success + (if truthy r.test_result.score then 1 else 0),
          l3_cost := t.l3_cost + c } := by
  simp only [score_step, h]
  rw [if_neg (by decide : ¬ ("3" : String) = "1"), if_neg (by decide : ¬ ("3" : String) = "2")]
  simp only [eq_self_iff_true, if_true, hc]

theorem score_step_unknown (t : ScoreTally) (r : Instance)
    (h1 : r.level ≠ "1") (h2 : r.level ≠ "2") (h3 : r.level ≠ "3") :
    score_step t r =
      Except.ok
        { t with
          total := t.total + 1,
          success := t.success + (if truthy r.test_result.score then 1 else 0) } := by
  simp only [score_step]
  rw [if_neg h1, if_neg h2, if_neg h3]

theorem score_four_tallies : score_tallies [instPlain, instL2, instL3, instL4] = Except.ok
    { total := 4, success := 4, l1_total := 1, l1_success := 1, l1_cost := 2,
      l2_total := 1, l2_success := 1, l2_cost := 1, l3_total := 1, l3_success := 1,
      l3_cost := 1 } := by
  have h1 : score_step initScoreTally instPlain = Except.ok
      { total := 1, success := 1, l1_total := 1, l1_success := 1, l1_cost := 2,
        l2_total := 0, l2_success := 0, l2_cost := 0, l3_total := 0, l3_success := 0,
        l3_cost := 0 } := by
    rw [score_step_l1 initScoreTally instPlain 2 rfl (by simp [instPlain, dlookup])]
    norm_num [initScoreTally, instPlain, truthy]
  have h2 : score_step
      { total := 1, success := 1, l1_total := 1, l1_success := 1, l1_cost := 2,
        l2_total := 0, l2_success := 0, l2_cost := 0, l3_total := 0, l3_success := 0,
        l3_cost := (0 : ℚ) } instL2 = Except.ok
      { total := 2, success := 2, l1_total := 1, l1_success := 1, l1_cost := 2,
        l2_total := 1, l2_success := 1, l2_cost := 1, l3_total := 0, l3_success := 0,
        l3_cost := 0 } := by
    rw [score_step_l2 _ instL2 1 rfl (by simp [instL2, dlookup])]
    norm_num [instL2, truthy]
  have h3 : score_step
      { total := 2, success := 2, l1_total := 1, l1_success := 1, l1_cost := 2,
        l2_total := 1, l2_success := 1, l2_cost := 1, l3_total := 0, l3_success := 0,
        l3_cost := (0 : ℚ) } instL3 = Except.ok
      { total := 3, success := 3, l1_total := 1, l1_success := 1, l1_cost := 2,
        l2_total := 1, l2_success := 1, l2_cost := 1, l3_total := 1, l3_success := 1,
        l3_cost := 1 } := by
    rw [score_step_l3 _ instL3 1 rfl (by simp [instL3, dlookup])]
    norm_num [instL3, truthy]
  have h4 : score_step
      { total := 3, success := 3, l1_total := 1, l1_success := 1, l1_cost := 2,
        l2_total := 1, l2_success := 1, l2_cost := 1, l3_total := 1, l3_success := 1,
        l3_cost := (1 : ℚ) } instL4 = Except.ok
      { total := 4, success := 4, l1_total := 1, l1_success := 1, l1_cost := 2,
        l2_total := 1, l2_success := 1, l2_cost := 1, l3_total := 1, l3_success := 1,
        l3_cost := 1 } := by
    rw [score_step_unknown _ instL4 (by decide) (by decide) (by decide)]
    norm_num [instL4, truthy]
  simp only [score_tallies, score_tallies_go, h1, h2, h3, h4]

theorem score_four_report : score_report [instPlain, instL2, instL3, instL4]
    = Except.ok reportFour := by
  simp only [score_report, score_four_tallies]
  norm_num [reportFour]

/-- C5 counterexample: on a file with one record of each Level 1, 2, 3
(costs 2, 1, 1) and one record of unknown Level 4 with cost 5, the report
succeeds but its reported total cost is 4, the sum of the three per-Level
costs only, not the 9 that including the unknown-Level cost would give: an
unknown-Level record does not contribute to the reported global total cost. -/
theorem C5_total_cost_counterexample :
    score_report [instPlain, instL2, instL3, instL4] = Except.ok reportFour ∧
    reportFour.total_cost ≠ 2 + 1 + 1 + 5 := by
  constructor
  · exact score_four_report
  · norm_num [reportFour]

/-- C5 amended: a record whose Level is none of 1, 2, 3 never makes the
tally loop fail and contributes exactly one global instance and its success
flag, leaving every per-Level counter and every cost accumulator unchanged;
the reported global total cost is the sum of the Level-1, Level-2 and
Level-3 costs alone, so unknown-Level costs are excluded from it. -/
theorem C5_unknown_level_contribution :
    (∀ (t : ScoreTally) (r : Instance),
        r.level ≠ "1" → r.level ≠ "2" → r.level ≠ "3" →
        score_step t r =
          Except.ok
            { t with
              total := t.total + 1,
              success := t.success + (if truthy r.test_result.score then 1 else 0) }) ∧
    (∀ (outs : List Instance) (rep : ScoreReport),
        score_report outs = Except.ok rep →
        rep.total_cost = rep.l1_cost + rep.l2_cost + rep.l3_cost) := by
  constructor
  · intro t r h1 h2 h3
    simp only [score_step]
    rw [if_neg h1, if_neg h2, if_neg h3]
  · intro outs rep h
    cases outs with
    | nil => simp [score_report] at h
    | cons a as =>
      simp only [score_report] at h
      cases ht : score_tallies (a :: as) with
      | error e => rw [ht] at h; exact absurd h (by simp)
      | ok t =>
        rw [ht] at h
        by_cases h1 : t.total = 0
        · simp [h1] at h
        · by_cases h2 : t.l1_total = 0
          · simp [h1, h2] at h
          · by_cases h3 : t.l2_total = 0
            · simp [h1, h2, h3] at h
            · by_cases h4 : t.l3_total = 0
              · simp [h1, h2, h3, h4] at h
              · simp only [h1, h2, h3, h4, if_false, Except.ok.injEq, if_neg] at h
                subst h
                rfl

theorem C5_unknown_level_contribution_witness :
    score_step tallyPlain instL4 =
      Except.ok
        { tallyPlain with
          total := tallyPlain.total + 1,
          success := tallyPlain.success + (if truthy instL4.test_result.score then 1 else 0) } ∧
    reportFour.total_cost = reportFour.l1_cost + reportFour.l2_cost + reportFour.l3_cost :=
  ⟨C5_unknown_level_contribution.1 tallyPlain instL4 (by decide) (by decide) (by decide),
   C5_unknown_level_contribution.2 [instPlain, instL2, instL3, instL4] reportFour
     score_four_report⟩

theorem fix_go_blank_insert (parse : String → Except PErr Instance) (b : String)
    (hb : pyBlank b = true) :
    ∀ (l1 : List String) (s : FixSummary) (fl : List Instance) (l2 : List String),
      fix_go parse s fl (l1 ++ b :: l2) = fix_go parse s fl (l1 ++ l2) := by
  intro l1
  induction l1 with
  | nil => intro s fl l2; simp [fix_go, hb]
  | cons x t ih =>
    intro s fl l2
    simp only [List.cons_append, fix_go]
    by_cases hx : pyBlank x = true
    · rw [if_pos hx, if_pos hx]; exact ih _ _ _
    · rw [if_neg hx, if_neg hx]
      cases hp : parse x with
      | error e => rfl
      | ok i => exact ih _ _ _

theorem analyze_go_blank_insert (parse : String → Except PErr Instance) (b : String)
    (hb : pyBlank b = true) :
    ∀ (l1 : List String) (tot : AnalyzeTotals) (costs : List InstCost) (l2 : List String),
      analyze_go parse tot costs (l1 ++ b :: l2) = analyze_go parse tot costs (l1 ++ l2) := by
  intro l1
  induction l1 with
  | nil => intro tot costs l2; simp [analyze_go, hb]
  | cons x t ih =>
    intro tot costs l2
    simp only [List.cons_append, analyze_go]
    by_cases hx : pyBlank x = true
    · rw [if_pos hx, if_pos hx]; exact ih _ _ _
    · rw [if_neg hx, if_neg hx]
      cases hp : parse x with
      | error e => rfl
      | ok i =>
        dsimp only
        by_cases hu : i.test_result.usage_stats = []
        · rw [if_pos hu, if_pos hu]; exact ih _ _ _
        · rw [if_neg hu, if_neg hu]; exact ih _ _ _

theorem fix_go_first_error (parse : String → Except PErr Instance) (b : String) (e : PErr)
    (hb : pyBlank b = false) (he : parse b = Except.error e) :
    ∀ l1 : List String, (∀ x ∈ l1, pyBlank x = true ∨ ∃ i, parse x = Except.ok i) →
      ∀ (s : FixSummary) (fl : List Instance) (l2 : List String),
        fix_go parse s fl (l1 ++ b :: l2) = Except.error e := by
  intro l1
  induction l1 with
  | nil =>
    intro _ s fl l2
    simp only [List.nil_append, fix_go]
    rw [if_neg (by simp [hb]), he]
  | cons x t ih =>
    intro hall s fl l2
    simp only [List.cons_append, fix_go]
    by_cases hxb : pyBlank x = true
    · rw [if_pos hxb]; exact ih (fun y hy => hall y (List.mem_cons_of_mem _ hy)) _ _ _
    · rw [if_neg hxb]
      rcases hall x (List.mem_cons_self x t) with hblank | ⟨i, hi⟩
      · exact absurd hblank hxb
      · rw [hi]; exact ih (fun y hy => hall y (List.mem_cons_of_mem _ hy)) _ _ _

theorem analyze_go_first_error (parse : String → Except PErr Instance) (b : String) (e : PErr)
    (hb : pyBlank b = false) (he : parse b = Except.error e) :
    ∀ l1 : List String, (∀ x ∈ l1, pyBlank x = true ∨ ∃ i, parse x = Except.ok i) →
      ∀ (tot : AnalyzeTotals) (costs : List InstCost) (l2 : List String),
        analyze_go parse tot costs (l1 ++ b :: l2) = Except.error e := by
  intro l1
  induction l1 with
  | nil =>
    intro _ tot costs l2
    simp only [List.nil_append, analyze_go]
    rw [if_neg (by simp [hb]), he]
  | cons x t ih =>
    intro hall tot costs l2
    simp only [List.cons_append, analyze_go]
    by_cases hxb : pyBlank x = true
    · rw [if_pos hxb]; exact ih (fun y hy => hall y (List.mem_cons_of_mem _ hy)) _ _ _
    · rw [if_neg hxb]
      rcases hall x (List.mem_cons_self x t) with hblank | ⟨i, hi⟩
      · exact absurd hblank hxb
      · rw [hi]
        dsimp only
        by_cases hu : i.test_result.usage_stats = []
        · rw [if_pos hu]; exact ih (fun y hy => hall y (List.mem_cons_of_mem _ hy)) _ _ _
        · rw [if_neg hu]; exact ih (fun y hy => hall y (List.mem_cons_of_mem _ hy)) _ _ _

theorem parse_all_first_error (parse : String → Except PErr Instance) (b : String) (e : PErr)
    (he : parse b = Except.error e) :
    ∀ l1 : List String, (∀ x ∈ l1, ∃ i, parse x = Except.ok i) →
      ∀ l2 : List String, parse_all parse (l1 ++ b :: l2) = Except.error e := by
  intro l1
  induction l1 with
  | nil => intro _ l2; simp only [List.nil_append, parse_all]; rw [he]
  | cons x t ih =>
    intro hall l2
    obtain ⟨i, hi⟩ := hall x (List.mem_cons_self x t)
    simp only [List.cons_append, parse_all]
    rw [hi]
    dsimp only
    simp only [List.append_eq]
    rw [ih (fun y hy => hall y (List.mem_cons_of_mem _ hy)) l2]

/-- C6 counterexample: the same failure value is reported whether the
offending line is the second line of the file or the first line of a file,
and its message cites line 1 (the position inside the single parsed line) in
both cases: the reported failure does not identify the 1-based file line
number of the offending line. -/
theorem C6_no_line_number_counterexample :
    fix_output_file parse0 ["recPlain", "nonsense"] = Except.error peInvalid ∧
    fix_output_file parse0 ["nonsense"] = Except.error peInvalid ∧
    peInvalid.msg = "Expecting value: line 1 column 1 (char 0)" := by
  refine ⟨?_, ?_, rfl⟩
  · exact fix_go_first_error parse0 "nonsense" peInvalid (by decide) rfl ["recPlain"]
      (by intro x hx; rw [List.mem_singleton] at hx; subst hx; exact Or.inr ⟨instPlain, rfl⟩)
      initFixSummary [] []
  · exact fix_go_first_error parse0 "nonsense" peInvalid (by decide) rfl []
      (by intro x hx; cases hx) initFixSummary [] []

/-- C6 amended: a non-blank line that fails to parse aborts the processing
of the whole file for both the fixer and the analyzer: once every earlier
line is blank or parses, the run returns the parse error of the offending
line and produces no output; that error is exactly the parse error of the
content of the line, which carries no file position, so the failure does not
identify the 1-based line number. -/
theorem C6_parse_failure_aborts (parse : String → Except PErr Instance)
    (l1 l2 : List String) (b : String) (e : PErr)
    (h1 : ∀ x ∈ l1, pyBlank x = true ∨ ∃ i, parse x = Except.ok i)
    (hb : pyBlank b = false) (he : parse b = Except.error e) :
    fix_output_file parse (l1 ++ b :: l2) = Except.error e ∧
    analyze_cost parse (l1 ++ b :: l2) = Except.error e := by
  constructor
  · exact fix_go_first_error parse b e hb he l1 h1 initFixSummary [] l2
  · unfold analyze_cost
    rw [analyze_go_first_error parse b e hb he l1 h1 initAnalyzeTotals [] l2]

theorem C6_parse_failure_aborts_witness :
    fix_output_file parse0 ["recPlain", "nonsense"] = Except.error peInvalid ∧
    analyze_cost parse0 ["recPlain", "nonsense"] = Except.error peInvalid :=
  C6_parse_failure_aborts parse0 ["recPlain"] [] "nonsense" peInvalid
    (by intro x hx; rw [List.mem_singleton] at hx; subst hx; exact Or.inr ⟨instPlain, rfl⟩)
    (by decide) rfl

/-- C8 counterexample: get_score.py parses every line it read, blank lines
included; on a file whose second line is blank, the run fails with the parse
error of the blank line instead of skipping it, so a blank line is not
silently skipped by every operation that reads the file. -/
theorem C8_blank_line_crash_counterexample :
    get_score_main parse0 ["recPlain", ""] = Except.error (ScoreErr.parseErr peInvalid) := by
  have h : parse_all parse0 ["recPlain", ""] = Except.error peInvalid :=
    parse_all_first_error parse0 "" peInvalid rfl ["recPlain"]
      (by intro x hx; rw [List.mem_singleton] at hx; subst hx; exact ⟨instPlain, rfl⟩) []
  unfold get_score_main
  rw [h]

/-- C8 amended: the fixer and the analyzer silently skip blank lines:
inserting a blank line anywhere in the file leaves their whole result
unchanged, so a blank line contributes no record and causes no failure.
The score reader parses every line, so when the JSON decoder fails on a
blank line (as json.loads does on whitespace-only text) the whole run fails
with that parse error. -/
theorem C8_blank_line_handling :
    (∀ (parse : String → Except PErr Instance) (l1 l2 : List String) (b : String),
        pyBlank b = true →
        fix_output_file parse (l1 ++ b :: l2) = fix_output_file parse (l1 ++ l2)) ∧
    (∀ (parse : String → Except PErr Instance) (l1 l2 : List String) (b : String),
        pyBlank b = true →
        analyze_cost parse (l1 ++ b :: l2) = analyze_cost parse (l1 ++ l2)) ∧
    (∀ (parse : String → Except PErr Instance) (l1 l2 : List String) (b : String) (e : PErr),
        (∀ x ∈ l1, ∃ i, parse x = Except.ok i) → parse b = Except.error e →
        get_score_main parse (l1 ++ b :: l2) = Except.error (ScoreErr.parseErr e)) := by
  refine ⟨?_, ?_, ?_⟩
  · intro parse l1 l2 b hb
    exact fix_go_blank_insert parse b hb l1 initFixSummary [] l2
  · intro parse l1 l2 b hb
    unfold analyze_cost
    rw [analyze_go_blank_insert parse b hb l1 initAnalyzeTotals [] l2]
  · intro parse l1 l2 b e hall he
    unfold get_score_main
    rw [parse_all_first_error parse b e he l1 hall l2]

theorem C8_blank_line_handling_witness :
    fix_output_file parse0 ["recPlain", "", "recRetry"]
      = fix_output_file parse0 ["recPlain", "recRetry"] ∧
    analyze_cost parse0 ["recPlain", "", "recRetry"]
      = analyze_cost parse0 ["recPlain", "recRetry"] ∧
    get_score_main parse0 ["recPlain", ""] = Except.error (ScoreErr.parseErr peInvalid) :=
  ⟨C8_blank_line_handling.1 parse0 ["recPlain"] ["recRetry"] "" rfl,
   C8_blank_line_handling.2.1 parse0 ["recPlain"] ["recRetry"] "" rfl,
   C8_blank_line_handling.2.2 parse0 ["recPlain"] [] "" peInvalid
     (by intro x hx; rw [List.mem_singleton] at hx; subst hx; exact ⟨instPlain, rfl⟩) rfl⟩

theorem startsWith_iff (p : List Char) : ∀ s : List Char,
    startsWith s p = true ↔ s.take p.length = p := by
  induction p with
  | nil => intro s; simp [startsWith]
  | cons b p ih =>
    intro s
    cases s with
    | nil => simp [startsWith]
    | cons a s' => simp [startsWith, List.take_succ_cons, ih]

theorem startsWith_self (s : List Char) : startsWith s s = true := by
  rw [startsWith_iff]
  exact List.take_length s

theorem replaceAllFuel_nil (pat rep : List Char) (n : ℕ) :
    replaceAllFuel pat rep n [] = [] := by
  cases n with
  | zero => rfl
  | succ n => rfl

theorem replaceAll_suffix (pat rep : List Char) (hp : pat ≠ []) :
    ∀ (n : ℕ) (t : List Char), (t ++ pat).length ≤ n →
      hasSubstr (t ++ pat.dropLast) pat = false →
      replaceAllFuel pat rep n (t ++ pat) = t ++ rep := by
  intro n
  induction n with
  | zero =>
    intro t hlen _
    exfalso
    have hl : 1 ≤ pat.length := List.length_pos.mpr hp
    rw [List.length_append] at hlen
    omega
  | succ n ih =>
    intro t hlen hno
    cases t with
    | nil =>
      cases hpc : pat with
      | nil => exact absurd hpc hp
      | cons c pt =>
        subst hpc
        simp only [List.nil_append]
        simp only [replaceAllFuel]
        rw [if_pos ⟨hp, startsWith_self (c :: pt)⟩]
        have hd : List.drop ((c :: pt).length - 1) pt = [] := by
          simp [List.drop_length]
        rw [hd, replaceAllFuel_nil, List.append_nil]
    | cons a t' =>
      have hlen' : (t' ++ pat).length ≤ n := by
        simp only [List.cons_append, List.length_cons] at hlen
        omega
      have hkey : List.take pat.length ((a :: t') ++ pat.dropLast)
          = List.take pat.length ((a :: t') ++ pat) := by
        rw [List.take_append_eq_append_take, List.take_append_eq_append_take,
          List.dropLast_eq_take, List.take_take]
        have hmin : min (pat.length - (a :: t').length) (pat.length - 1)
            = pat.length - (a :: t').length := by
          apply Nat.min_eq_left
          simp only [List.length_cons]
          omega
        rw [hmin]
      have hno1 : startsWith ((a :: t') ++ pat.dropLast) pat = false ∧
          hasSubstr (t' ++ pat.dropLast) pat = false := by
        have := hno
        simp only [List.cons_append, hasSubstr, Bool.or_eq_false_iff] at this
        exact this
      have hsw : startsWith ((a :: t') ++ pat) pat = false := by
        cases hq : startsWith ((a :: t') ++ pat) pat with
        | false => rfl
        | true =>
          exfalso
          rw [startsWith_iff] at hq
          have : startsWith ((a :: t') ++ pat.dropLast) pat = true := by
            rw [startsWith_iff, hkey]
            exact hq
          rw [this] at hno1
          exact Bool.true_eq_false.mp hno1.1
      simp only [List.cons_append, replaceAllFuel]
      rw [if_neg (by simp only [List.cons_append] at hsw; simp [hsw])]
      simp only [List.append_eq]
      rw [ih t' hlen' hno1.2]

/-- C9 counterexample: on the input path a.jsonl.jsonl the default output
path the source computes (str.replace, every occurrence) is
a_fixed.jsonl_fixed.jsonl, while replacing only the trailing suffix, as the
claim states, gives a.jsonl_fixed.jsonl; the two differ. -/
theorem C9_replace_all_counterexample :
    default_output_path "a.jsonl.jsonl" ≠ spec_suffix_output_path "a.jsonl.jsonl" ∧
    default_output_path "a.jsonl.jsonl" = "a_fixed.jsonl_fixed.jsonl" ∧
    spec_suffix_output_path "a.jsonl.jsonl" = "a.jsonl_fixed.jsonl" :=
  ⟨by decide, by decide, by decide⟩

/-- C9 amended: when no output path is given and dry-run is off, the
default output path replaces every occurrence of .jsonl with _fixed.jsonl
(Python str.replace); this coincides with trailing-suffix replacement
exactly when the only occurrence of .jsonl is the trailing one, as the
hypothesis states. When dry-run is requested the output path is forced to
/dev/null, so the write is redirected to the null device rather than
suppressed. -/
theorem C9_output_path :
    (∀ t : String, hasSubstr (t.data ++ (".jsonl".data).dropLast) ".jsonl".data = false →
        default_output_path (t ++ ".jsonl") = t ++ "_fixed.jsonl") ∧
    (∀ (inp : String) (out : Option String), chosen_output_path inp out true = "/dev/null") := by
  constructor
  · intro t ht
    cases t with
    | mk d =>
      show (⟨replaceAllFuel (".jsonl".data) ("_fixed.jsonl".data)
          ((d ++ ".jsonl".data).length) (d ++ ".jsonl".data)⟩ : String)
        = ⟨d ++ "_fixed.jsonl".data⟩
      exact congrArg String.mk
        (replaceAll_suffix (".jsonl".data) ("_fixed.jsonl".data) (by decide) _ d (le_refl _) ht)
  · intro inp out
    rfl

theorem C9_output_path_witness :
    default_output_path ("data" ++ ".jsonl") = "data" ++ "_fixed.jsonl" ∧
    chosen_output_path "in.jsonl" none true = "/dev/null" :=
  ⟨C9_output_path.1 "data" (by decide), C9_output_path.2 "in.jsonl" none⟩
